import Mathlib

/-!
Shallow embedding of the `etlgcp` repository (modules `storage.py`, `bq.py`,
`publisher.py`, `subscriber.py`).

Modelling conventions, shared by every definition below:

* Each facade operation wraps a body of cloud-SDK calls in `try/except`.
  The outcome of one execution of the body (one attempt) is supplied by an
  oracle `Nat → Outcome` indexed by the operation's `retry` counter, since
  the SDK's behaviour is external to this repository.
* Python exceptions are modelled by the `Outcome` (for what the body raises)
  and `PyExc` (for what an operation propagates to its caller) types.
  An operation whose source catches every exception has a result of type
  `Except PyExc α` that is provably always `.ok`; the `Except` type records
  that propagation is representable, so that "never raises" is a theorem
  rather than a typing accident.
* Side effects that the claims talk about (sleeps between attempts, log
  severities, individual SDK calls) are recorded in an event trace, in
  source order.  Log *text* is not modelled, only the severity; `labels`
  and the `logger` object are irrelevant to every claim and are dropped.
* `time.sleep(n)` becomes the trace event `.sleep n`.
-/

/-- Severity tag of a `logger.log_text(..., severity=...)` call. -/
inductive Severity where
  | DEBUG | INFO | WARNING | ERROR
  deriving DecidableEq, Repr

/-- One observable step of an operation: an SDK call (named after the
central SDK method of the `try` body, paired with the retry depth at which
it happens), a sleep of a given number of seconds, or a log line. -/
inductive Event where
  | call  (name : String) (attempt : Nat)
  | sleep (seconds : Nat)
  | log   (sev : Severity)
  deriving DecidableEq, Repr

/-- Exception classes distinguished by the `except` clauses of the source:
`google.cloud.exceptions.NotFound`, `google.cloud.exceptions.Conflict`,
`concurrent.futures.TimeoutError`, `KeyboardInterrupt`, `NameError`
(raised by Python itself on an unbound name), and any other exception. -/
inductive PyExc where
  | notFound | conflict | timeoutErr | interrupt | nameError | other
  deriving DecidableEq, Repr

/-- Outcome of one execution of an operation's `try` body: it returns
normally, or raises one of the distinguished exception classes. -/
inductive Outcome where
  | ok | notFound | conflict | err
  deriving DecidableEq, Repr

/-- Number of `.call name _` events in a trace. -/
def callCount (name : String) (tr : List Event) : Nat :=
  (tr.filter fun e => match e with
    | .call m _ => m == name
    | _ => false).length

/-- The list of sleep durations in a trace, in order. -/
def sleeps (tr : List Event) : List Nat :=
  tr.filterMap fun e => match e with
    | .sleep n => some n
    | _ => none

/-! ## storage.py : `Etlstorage.move_file_gs`

```python
def move_file_gs(self, gsPathIn, gsPathOut, delete=True, retry=0):
    try:
        ... copy_blob ...; if delete: inputBlob.delete(); log INFO
        log INFO; return True
    except NotFound:
        log WARNING; return False
    except Exception:
        if retry < 3: log WARNING; time.sleep(3); return self.move_file_gs(..., retry=retry+1)
        else: log ERROR; return False
```
The body (bucket lookups, `copy_blob`, the optional delete) is one oracle
call per attempt, tagged `"copy_blob"`. -/
def move_file_gs (o : Nat → Outcome) (delete : Bool) (retry : Nat) :
    Except PyExc Bool × List Event :=
  match o retry with
  | .ok =>
      (.ok true, [Event.call "copy_blob" retry]
        ++ (if delete then [Event.log .INFO] else []) ++ [Event.log .INFO])
  | .notFound =>
      (.ok false, [Event.call "copy_blob" retry, Event.log .WARNING])
  | _ =>
      if retry < 3 then
        let r := move_file_gs o delete (retry + 1)
        (r.1, [Event.call "copy_blob" retry, Event.log .WARNING, Event.sleep 3] ++ r.2)
      else
        (.ok false, [Event.call "copy_blob" retry, Event.log .ERROR])
termination_by 3 - retry
decreasing_by omega

/-! ## storage.py : `Etlstorage.extractBucketFile`

```python
bucket = gsPath.replace("gs://", "").split("/")[0]
filePath = gsPath[len(bucket) + 6 :]
return bucket, filePath
```
Python strings are embedded as `List Char`; `str.replace`, `str.split` and
slicing are embedded by `pyReplace`, `pySplit` and `List.drop` below. -/

/-- Python `s.replace(pat, repl)` on character lists: one left-to-right pass
over `s`, replacing each non-overlapping occurrence of `pat`.  (Python's
special behaviour for an empty `pat` is not reproduced; every use site in
the source passes the literal `"gs://"`.) -/
def pyReplace (pat repl : List Char) : List Char → List Char
  | [] => []
  | a :: rest =>
      if pat ≠ [] ∧ pat.isPrefixOf (a :: rest) = true then
        repl ++ pyReplace pat repl (List.drop pat.length (a :: rest))
      else
        a :: pyReplace pat repl rest
termination_by s => s.length
decreasing_by
  · rename_i h
    have : pat.length ≠ 0 := fun hn => h.1 (List.eq_nil_of_length_eq_zero hn)
    simp
    omega
  · simp

/-- Python `s.split(sep)` for a one-character separator: splits at every
occurrence of `sep`, keeping empty segments, so the result always has one
more segment than there are separators. -/
def pySplit (sep : Char) : List Char → List (List Char)
  | [] => [[]]
  | a :: rest =>
      if a = sep then [] :: pySplit sep rest
      else
        match pySplit sep rest with
        | [] => [[a]]
        | s :: ss => (a :: s) :: ss

/-- The characters of the literal `"gs://"`. -/
def gsScheme : List Char := ['g', 's', ':', '/', '/']

/-- `Etlstorage.extractBucketFile` (storage.py, lines 16-28), verbatim:
`bucket` is the first `"/"`-segment of the path with every occurrence of
`"gs://"` removed, and `filePath` is the slice `gsPath[len(bucket)+6:]`. -/
def extractBucketFile (gsPath : List Char) : List Char × List Char :=
  let bucket := (pySplit '/' (pyReplace gsScheme [] gsPath)).headD []
  let filePath := gsPath.drop (bucket.length + 6)
  (bucket, filePath)

/-! ## storage.py : the remaining object-storage operations -/

/-- `Etlstorage.file_exist_gs` (storage.py, lines 30-54).  The body's
outcome is `some stat` when `Blob.exists` returns `stat`, and `none` when
any step of the body raises; the single `except Exception` handler logs at
ERROR and returns `False`. -/
def file_exist_gs (o : Option Bool) : Except PyExc Bool × List Event :=
  match o with
  | some stat => (.ok stat, [Event.call "blob_exists" 0, Event.log .INFO])
  | none => (.ok false, [Event.call "blob_exists" 0, Event.log .ERROR])

/-- `Etlstorage.copy_file_gs` (storage.py, lines 110-119):
`return self.move_file_gs(gsPathIn, gsPathOut, delete=False)` with the
default `retry=0`. -/
def copy_file_gs (o : Nat → Outcome) : Except PyExc Bool × List Event :=
  move_file_gs o false 0

/-- `Etlstorage.rename_gs` (storage.py, lines 121-148).  No retry and no
`except NotFound` clause: on success it returns
`"gs://" + bucketName + "/" + newName` (where `bucketName` comes from
`extractBucketFile(gsPath)`); on any exception it logs at ERROR and
returns `False` (modelled as `none`). -/
def rename_gs (o : Outcome) (gsPath newName : List Char) :
    Except PyExc (Option (List Char)) × List Event :=
  match o with
  | .ok =>
      (.ok (some (gsScheme ++ (extractBucketFile gsPath).1 ++ '/' :: newName)),
        [Event.call "rename_blob" 0, Event.log .INFO])
  | _ => (.ok none, [Event.call "rename_blob" 0, Event.log .ERROR])

/-- `Etlstorage.download_file_from_gs` (storage.py, lines 150-192):
`except NotFound` → WARNING and `False`; any other exception → retry up to
3 times with `time.sleep(3)`, then ERROR and `False`. -/
def download_file_from_gs (o : Nat → Outcome) (retry : Nat) :
    Except PyExc Bool × List Event :=
  match o retry with
  | .ok => (.ok true, [Event.call "download_to_filename" retry, Event.log .INFO])
  | .notFound =>
      (.ok false, [Event.call "download_to_filename" retry, Event.log .WARNING])
  | _ =>
      if retry < 3 then
        let r := download_file_from_gs o (retry + 1)
        (r.1, [Event.call "download_to_filename" retry, Event.log .WARNING,
               Event.sleep 3] ++ r.2)
      else
        (.ok false, [Event.call "download_to_filename" retry, Event.log .ERROR])
termination_by 3 - retry
decreasing_by omega

/-- `Etlstorage.upload_file_to_gs` (storage.py, lines 194-239).  Note the
source has **no** `except NotFound` clause here: every exception class,
`NotFound` included, is handled by the single `except Exception` clause,
which retries up to 3 times with `time.sleep(3)` and then returns `False`
with an ERROR log. -/
def upload_file_to_gs (o : Nat → Outcome) (delete : Bool) (retry : Nat) :
    Except PyExc Bool × List Event :=
  match o retry with
  | .ok =>
      (.ok true, [Event.call "upload_from_filename" retry]
        ++ (if delete then [Event.log .INFO] else []) ++ [Event.log .INFO])
  | _ =>
      if retry < 3 then
        let r := upload_file_to_gs o delete (retry + 1)
        (r.1, [Event.call "upload_from_filename" retry, Event.log .WARNING,
               Event.sleep 3] ++ r.2)
      else
        (.ok false, [Event.call "upload_from_filename" retry, Event.log .ERROR])
termination_by 3 - retry
decreasing_by omega

/-- `Etlstorage.list_files_from_gs` (storage.py, lines 241-281).  The body
either returns a file list (oracle `some files`) or raises (`none`), in
which case the handler logs at ERROR and returns `None`. -/
def list_files_from_gs (o : Option (List (List Char))) :
    Except PyExc (Option (List (List Char))) × List Event :=
  match o with
  | some files => (.ok (some files), [Event.call "list_blobs" 0, Event.log .INFO])
  | none => (.ok none, [Event.call "list_blobs" 0, Event.log .ERROR])

/-- `Etlstorage.delete_file_from_gs` (storage.py, lines 283-324):
`except NotFound` → WARNING and `False`; any other exception → retry up to
**2** times (`if retry < 2`) with `time.sleep(3)`, then ERROR and `False`. -/
def delete_file_from_gs (o : Nat → Outcome) (retry : Nat) :
    Except PyExc Bool × List Event :=
  match o retry with
  | .ok => (.ok true, [Event.call "blob_delete" retry, Event.log .INFO])
  | .notFound => (.ok false, [Event.call "blob_delete" retry, Event.log .WARNING])
  | _ =>
      if retry < 2 then
        let r := delete_file_from_gs o (retry + 1)
        (r.1, [Event.call "blob_delete" retry, Event.log .WARNING,
               Event.sleep 3] ++ r.2)
      else
        (.ok false, [Event.call "blob_delete" retry, Event.log .ERROR])
termination_by 2 - retry
decreasing_by omega

/-! ## bq.py : `Etlbq.createwait_table`

```python
try:
    ...; self.create_table(table=bigquery_table)
    tableExist = False
    while not tableExist:
        try: self.get_table(table_ref); tableExist = True
        except: time.sleep(5); tableExist = False
    log INFO; return True
except Conflict: log INFO; return True
except Exception:
    if retry < 3: log WARNING; time.sleep(5); recurse with retry+1
    else: log ERROR; return False
```
The confirmation `while` loop has no bound, so it is embedded with an
explicit fuel parameter: a `none` overall result means the loop was still
running when the fuel ran out, i.e. the source diverges on that world. -/

/-- World for `createwait_table`: the outcome of `create_table` at each
retry depth, and the outcome of the `get_table` probe at each retry depth
and loop iteration (`true` = the table is visible, `false` = `get_table`
raised, which the bare `except:` turns into `time.sleep(5)` and another
iteration). -/
structure CwWorld where
  create : Nat → Outcome
  check : Nat → Nat → Bool

/-- The `while not tableExist` confirmation loop of `createwait_table`,
probing `check i`, `check (i+1)`, ... with `fuel` iterations available.
Returns `none` (still looping) or `some ()` once a probe succeeds. -/
def waitLoop (check : Nat → Bool) : Nat → Nat → Option Unit × List Event
  | 0, _ => (none, [])
  | fuel + 1, i =>
      if check i then (some (), [Event.call "get_table" i])
      else
        let r := waitLoop check fuel (i + 1)
        (r.1, [Event.call "get_table" i, Event.sleep 5] ++ r.2)

/-- `Etlbq.createwait_table` (bq.py, lines 21-75).  The overall result is
`none` when the confirmation loop exhausts its fuel (the source never
returns on such worlds), otherwise `some b` for the returned boolean. -/
def createwait_table (w : CwWorld) (fuel : Nat) (retry : Nat) :
    Option Bool × List Event :=
  match w.create retry with
  | .ok =>
      let r := waitLoop (w.check retry) fuel 0
      match r.1 with
      | none => (none, Event.call "create_table" retry :: r.2)
      | some _ =>
          (some true,
            Event.call "create_table" retry :: r.2 ++ [Event.log .INFO])
  | .conflict => (some true, [Event.call "create_table" retry, Event.log .INFO])
  | _ =>
      if retry < 3 then
        let r := createwait_table w fuel (retry + 1)
        (r.1, [Event.call "create_table" retry, Event.log .WARNING,
               Event.sleep 5] ++ r.2)
      else
        (some false, [Event.call "create_table" retry, Event.log .ERROR])
termination_by 3 - retry
decreasing_by omega

/-! ## bq.py : the three asynchronous job operations

Each submits a job, then waits via `job.result(timeout=self.timeout)`
inside an inner `try` whose only clause is
`except concurrent.futures.TimeoutError`, which logs at WARNING and falls
through; the function then returns `(job_id, job.errors)`.  Any other
exception anywhere in the body is handled by the outer `except Exception`:
up to 3 retries with `time.sleep(5)`, then `(None, None)` with an ERROR
log.  The `job_id` is built from the dataset, the table and a fresh
`uuid.uuid4()` per attempt (the source re-reads `job.job_id`, which the
SDK sets to the submitted id). -/

/-- Outcome of one attempt of a job operation's body: the submission went
through (`timedOut` tells whether `job.result` hit the timeout, `errors`
is `job.errors`, `None` in Python when the job reported no errors), or
some step raised a non-timeout exception. -/
inductive JobAttempt where
  | ok (timedOut : Bool) (errors : Option (List String))
  | exc
  deriving DecidableEq, Repr

/-- World for a job operation: the attempt outcomes and the `uuid.uuid4()`
drawn at each retry depth. -/
structure JobWorld where
  att : Nat → JobAttempt
  uuidGen : Nat → String

/-- `Etlbq.insert_file` (bq.py, lines 163-267). -/
def insert_file (w : JobWorld) (dataset_name table_name : String) (retry : Nat) :
    Except PyExc (Option String × Option (List String)) × List Event :=
  match w.att retry with
  | .ok timedOut errors =>
      (.ok (some (dataset_name ++ "_" ++ table_name ++ "_loadFile-" ++ w.uuidGen retry),
            errors),
        [Event.call "load_table" retry]
          ++ (if timedOut then [Event.log .WARNING] else []) ++ [Event.log .INFO])
  | .exc =>
      if retry < 3 then
        let r := insert_file w dataset_name table_name (retry + 1)
        (r.1, [Event.call "load_table" retry, Event.log .WARNING,
               Event.sleep 5] ++ r.2)
      else
        (.ok (none, none), [Event.call "load_table" retry, Event.log .ERROR])
termination_by 3 - retry
decreasing_by omega

/-- `Etlbq.run_queryjob` (bq.py, lines 269-343). -/
def run_queryjob (w : JobWorld) (dataset_name table_name : String) (retry : Nat) :
    Except PyExc (Option String × Option (List String)) × List Event :=
  match w.att retry with
  | .ok timedOut errors =>
      (.ok (some (dataset_name ++ "_" ++ table_name ++ "_fromQuery-" ++ w.uuidGen retry),
            errors),
        [Event.call "query" retry]
          ++ (if timedOut then [Event.log .WARNING] else []) ++ [Event.log .INFO])
  | .exc =>
      if retry < 3 then
        let r := run_queryjob w dataset_name table_name (retry + 1)
        (r.1, [Event.call "query" retry, Event.log .WARNING, Event.sleep 5] ++ r.2)
      else
        (.ok (none, none), [Event.call "query" retry, Event.log .ERROR])
termination_by 3 - retry
decreasing_by omega

/-- `Etlbq.run_extractjob` (bq.py, lines 345-424). -/
def run_extractjob (w : JobWorld) (dataset_name table_name : String) (retry : Nat) :
    Except PyExc (Option String × Option (List String)) × List Event :=
  match w.att retry with
  | .ok timedOut errors =>
      (.ok (some (dataset_name ++ "_" ++ table_name ++ "_extractTable-" ++ w.uuidGen retry),
            errors),
        [Event.call "extract_table" retry]
          ++ (if timedOut then [Event.log .WARNING] else []) ++ [Event.log .INFO])
  | .exc =>
      if retry < 3 then
        let r := run_extractjob w dataset_name table_name (retry + 1)
        (r.1, [Event.call "extract_table" retry, Event.log .WARNING,
               Event.sleep 5] ++ r.2)
      else
        (.ok (none, none), [Event.call "extract_table" retry, Event.log .ERROR])
termination_by 3 - retry
decreasing_by omega

/-! ## publisher.py : `publish`

```python
topic_path = publisher_client.topic_path(project_id, topic_name)
try:
    publisher_client.get_topic(topic_path); topic_request_status = "topic exists"
except:
    publisher_client.create_topic(topic_path); topic_request_status = "topic created"
log DEBUG
data = message.encode("utf-8")
if isinstance(attributes, dict): attrs = json.dumps(attributes)
else: attrs = ''; log ERROR
try:
    publisher_client.publish(...); log INFO; return True
except Exception as e:
    log ERROR
    if retry < 2: time.sleep(10); recurse with retry+1
    else: return False
```
`create_topic` runs inside the bare `except:` handler with no further
protection: if it raises, the exception propagates out of `publish`. -/

/-- World for `publish`: whether `get_topic` succeeds at each recursion
depth, whether `create_topic` (called only when `get_topic` raised)
succeeds, the outcome of the `publisher_client.publish` call at each
depth, and whether the `attributes` argument is a `dict`. -/
structure PubWorld where
  topicExists : Nat → Bool
  createOk : Nat → Bool
  pubOutcome : Nat → Outcome
  attrsIsDict : Bool

/-- The topic-ensuring `try/except` at the top of `publish`: `some evs`
when control reaches the code after it (with the SDK calls it made), or
`none` when `create_topic` raised, which escapes `publish` entirely. -/
def ensureTopic (w : PubWorld) (retry : Nat) : Option (List Event) :=
  if w.topicExists retry then some [Event.call "get_topic" retry]
  else if w.createOk retry then
    some [Event.call "get_topic" retry, Event.call "create_topic" retry]
  else none

/-- `publish` (publisher.py, lines 5-44). -/
def publish (w : PubWorld) (retry : Nat) : Except PyExc Bool × List Event :=
  match ensureTopic w retry with
  | none =>
      (.error .other, [Event.call "get_topic" retry, Event.call "create_topic" retry])
  | some evs0 =>
      let evs := evs0 ++ [Event.log .DEBUG]
        ++ (if w.attrsIsDict then [] else [Event.log .ERROR])
      match w.pubOutcome retry with
      | .ok => (.ok true, evs ++ [Event.call "publish" retry, Event.log .INFO])
      | _ =>
          if retry < 2 then
            let r := publish w (retry + 1)
            (r.1, evs ++ [Event.call "publish" retry, Event.log .ERROR,
                          Event.sleep 10] ++ r.2)
          else
            (.ok false, evs ++ [Event.call "publish" retry, Event.log .ERROR])
termination_by 2 - retry
decreasing_by omega

/-! ## subscriber.py : `subscribe`

```python
subscription_path = subscriber_client.subscription_path(project_id, subscription_name)
try:
    subscriber_client.get_subscription(subscription_path); ... = "Subscription exists"
except:
    topic_path = publisher_client.topic_path(project_id, topic_name)   # line 34
    subscriber_client.create_subscription(subscription_path, topic_path)
    ... = "Subscription created"
log DEBUG
future = subscriber_client.subscribe(subscription_path, callback)
try: future.result()
except KeyboardInterrupt: future.cancel()
```
`publisher_client` on line 34 is a module-level global that is only bound
inside the `if __name__ == "__main__":` block of subscriber.py; when the
module is imported as a library, evaluating it raises `NameError`, which
(raised inside the bare `except:` handler) propagates to the caller. -/

/-- How the blocking `future.result()` call ends: the delivery stream
completes, is interrupted (`KeyboardInterrupt`, the one class the source
catches, answering it with `future.cancel()`), or raises anything else
(which propagates). -/
inductive StreamOutcome where
  | completes | interrupted | raises
  deriving DecidableEq, Repr

/-- World for `subscribe`: whether `get_subscription` succeeds, whether
the module-level name `publisher_client` is bound (it is only when
subscriber.py runs as a script), whether `create_subscription` succeeds,
and how the blocking wait ends. -/
structure SubWorld where
  subExists : Bool
  publisherClientBound : Bool
  createOk : Bool
  stream : StreamOutcome

/-- Tail of `subscribe` after the subscription is ensured: log DEBUG,
start the streaming pull, block on `future.result()`. -/
def subscribeTail (w : SubWorld) (evs0 : List Event) :
    Except PyExc Unit × List Event :=
  let evs := evs0 ++ [Event.log .DEBUG, Event.call "subscribe" 0]
  match w.stream with
  | .completes => (.ok (), evs)
  | .interrupted => (.ok (), evs ++ [Event.call "cancel" 0])
  | .raises => (.error .other, evs)

/-- `subscribe` (subscriber.py, lines 15-42). -/
def subscribe (w : SubWorld) : Except PyExc Unit × List Event :=
  if w.subExists then
    subscribeTail w [Event.call "get_subscription" 0]
  else if ¬ w.publisherClientBound then
    (.error .nameError, [Event.call "get_subscription" 0])
  else if w.createOk then
    subscribeTail w [Event.call "get_subscription" 0, Event.call "create_subscription" 0]
  else
    (.error .other,
      [Event.call "get_subscription" 0, Event.call "create_subscription" 0])

/-! ## bq.py : `Etlbq.build_schema_from_dict`

```python
schema_bq = []
try:
    for k, v in schema_dict.items():
        if isinstance(v, str) or isinstance(v, unicode):
            schema_bq.append(bigquery.SchemaField(k, v, mode_fields))
        elif isinstance(v, dict): ... "RECORD" ...
        elif isinstance(v, list): ... "REPEATED" ...
        else: log ERROR
    log INFO; return schema_bq
except Exception as e:
    log ERROR; return schema_bq
```
The file runs under Python 3 (it uses f-strings), where the Python 2
builtin `unicode` does not exist.  For a `str` value the `or` condition
short-circuits; for every other value `isinstance(v, unicode)` raises
`NameError`, the `except Exception` clause catches it, and the function
returns the fields accumulated so far.  The `dict` and `list` branches
are therefore unreachable, which is why the embedding has no case
building a `"RECORD"` field. -/

/-- A Python value as it may appear in a schema dictionary. -/
inductive PyVal where
  | str (s : String)
  | dict (entries : List (String × PyVal))
  | list (elems : List PyVal)
  | other
  deriving Repr

/-- `bigquery.SchemaField(name, field_type, mode, fields)`. -/
inductive SchemaField where
  | mk (name : String) (fieldType : String) (mode : String)
       (fields : List SchemaField)
  deriving Repr

/-- `Etlbq.build_schema_from_dict` (bq.py, lines 108-161), with the loop
written as `go` threading the accumulated `schema_bq`.  A non-`str` value
makes the `isinstance(v, unicode)` test raise `NameError` (see the module
comment above), so the loop stops and the partial list is returned. -/
def build_schema_from_dict (mode_fields : String)
    (schema_dict : List (String × PyVal)) : List SchemaField :=
  go schema_dict []
where
  go : List (String × PyVal) → List SchemaField → List SchemaField
  | [], acc => acc
  | (k, v) :: rest, acc =>
      match v with
      | .str s => go rest (acc ++ [SchemaField.mk k s mode_fields []])
      | _ => acc

/-! ## Concrete worlds used to evaluate the operations on explicit inputs -/

/-- A body that raises a retriable (neither `NotFound` nor `Conflict`)
exception on every attempt. -/
def allErr : Nat → Outcome := fun _ => Outcome.err

/-- A body that raises `NotFound` on every attempt. -/
def allNotFound : Nat → Outcome := fun _ => Outcome.notFound

/-- A `createwait_table` world whose `create_table` raises a retriable
exception on every attempt (the confirmation loop is never reached). -/
def cwErr : CwWorld := ⟨fun _ => Outcome.err, fun _ _ => false⟩

/-- A `createwait_table` world where `create_table` raises `Conflict`
(the table already exists). -/
def cwConflict : CwWorld := ⟨fun _ => Outcome.conflict, fun _ _ => false⟩

/-- A `createwait_table` world where creation succeeds and the very first
`get_table` probe sees the table. -/
def cwOk : CwWorld := ⟨fun _ => Outcome.ok, fun _ _ => true⟩

/-- A `createwait_table` world where creation succeeds but no `get_table`
probe ever sees the table. -/
def cwNeverVisible : CwWorld := ⟨fun _ => Outcome.ok, fun _ _ => false⟩

/-- A job world whose body raises a non-timeout exception on every attempt. -/
def jwExc : JobWorld := ⟨fun _ => JobAttempt.exc, fun _ => "u"⟩

/-- A job world whose first attempt submits fine but hits the completion
timeout, with an empty error list on the job. -/
def jwTimeout : JobWorld := ⟨fun _ => JobAttempt.ok true none, fun _ => "u"⟩

/-- A `publish` world where the topic exists and every `publish` call
raises a retriable exception. -/
def pwErr : PubWorld := ⟨fun _ => true, fun _ => true, fun _ => Outcome.err, true⟩

/-- A `publish` world where the topic exists and publishing succeeds. -/
def pwTopicExists : PubWorld := ⟨fun _ => true, fun _ => true, fun _ => Outcome.ok, true⟩

/-- A `publish` world where the topic is missing, `create_topic` succeeds,
and publishing succeeds. -/
def pwCreateOk : PubWorld := ⟨fun _ => false, fun _ => true, fun _ => Outcome.ok, true⟩

/-- A `publish` world where the topic is missing and `create_topic` itself
raises. -/
def pwCreateFails : PubWorld := ⟨fun _ => false, fun _ => false, fun _ => Outcome.ok, true⟩

/-- A `subscribe` world where the subscription is missing and the module
was imported as a library, so the global `publisher_client` is unbound. -/
def swLibraryNoSub : SubWorld := ⟨false, false, true, StreamOutcome.completes⟩

/-- A `subscribe` world where the subscription already exists and the
stream is eventually interrupted. -/
def swExists : SubWorld := ⟨true, false, true, StreamOutcome.interrupted⟩

/-- A `subscribe` world where the subscription is missing, the script-mode
global is bound, and creation succeeds. -/
def swCreateOk : SubWorld := ⟨false, true, true, StreamOutcome.completes⟩

/-! # Theorems -/

/-- Claim C1: for every operation with retry ceiling C (C = 3 for
`move_file_gs`, `download_file_from_gs`, `upload_file_to_gs`,
`createwait_table`, `insert_file`, `run_queryjob`, `run_extractjob`;
C = 2 for `delete_file_from_gs` and `publish`), if a retriable exception
(neither `NotFound` nor `Conflict`) is raised on every attempt, the
operation performs exactly C + 1 attempts, sleeps a fixed delay between
consecutive attempts (3 s for the storage ops, 5 s for the warehouse ops,
10 s for `publish`), and returns its failure sentinel (`False`, or the
pair `(None, None)` for the job operations). -/
theorem claim1_retry_exhaustion
    (omv odl oup odc : Nat → Outcome) (d du : Bool)
    (cw : CwWorld) (jw1 jw2 jw3 : JobWorld) (pw : PubWorld)
    (ds tb : String) (fuel : Nat)
    (hmv : ∀ n, omv n = .err) (hdl : ∀ n, odl n = .err)
    (hup : ∀ n, oup n = .err) (hdc : ∀ n, odc n = .err)
    (hcw : ∀ n, cw.create n = .err)
    (hj1 : ∀ n, jw1.att n = .exc) (hj2 : ∀ n, jw2.att n = .exc)
    (hj3 : ∀ n, jw3.att n = .exc)
    (hpt : ∀ n, pw.topicExists n = true)
    (hpp : ∀ n, pw.pubOutcome n = .err)
    (hpa : pw.attrsIsDict = true) :
    ((move_file_gs omv d 0).1 = .ok false
      ∧ callCount "copy_blob" (move_file_gs omv d 0).2 = 4
      ∧ sleeps (move_file_gs omv d 0).2 = [3, 3, 3])
    ∧ ((download_file_from_gs odl 0).1 = .ok false
      ∧ callCount "download_to_filename" (download_file_from_gs odl 0).2 = 4
      ∧ sleeps (download_file_from_gs odl 0).2 = [3, 3, 3])
    ∧ ((upload_file_to_gs oup du 0).1 = .ok false
      ∧ callCount "upload_from_filename" (upload_file_to_gs oup du 0).2 = 4
      ∧ sleeps (upload_file_to_gs oup du 0).2 = [3, 3, 3])
    ∧ ((createwait_table cw fuel 0).1 = some false
      ∧ callCount "create_table" (createwait_table cw fuel 0).2 = 4
      ∧ sleeps (createwait_table cw fuel 0).2 = [5, 5, 5])
    ∧ ((insert_file jw1 ds tb 0).1 = .ok (none, none)
      ∧ callCount "load_table" (insert_file jw1 ds tb 0).2 = 4
      ∧ sleeps (insert_file jw1 ds tb 0).2 = [5, 5, 5])
    ∧ ((run_queryjob jw2 ds tb 0).1 = .ok (none, none)
      ∧ callCount "query" (run_queryjob jw2 ds tb 0).2 = 4
      ∧ sleeps (run_queryjob jw2 ds tb 0).2 = [5, 5, 5])
    ∧ ((run_extractjob jw3 ds tb 0).1 = .ok (none, none)
      ∧ callCount "extract_table" (run_extractjob jw3 ds tb 0).2 = 4
      ∧ sleeps (run_extractjob jw3 ds tb 0).2 = [5, 5, 5])
    ∧ ((delete_file_from_gs odc 0).1 = .ok false
      ∧ callCount "blob_delete" (delete_file_from_gs odc 0).2 = 3
      ∧ sleeps (delete_file_from_gs odc 0).2 = [3, 3])
    ∧ ((publish pw 0).1 = .ok false
      ∧ callCount "publish" (publish pw 0).2 = 3
      ∧ sleeps (publish pw 0).2 = [10, 10]) := by
  refine ⟨?_, ?_, ?_, ?_, ?_, ?_, ?_, ?_, ?_⟩
  · simp [move_file_gs, hmv, callCount, sleeps]
  · simp [download_file_from_gs, hdl, callCount, sleeps]
  · simp [upload_file_to_gs, hup, callCount, sleeps]
  · simp [createwait_table, hcw, callCount, sleeps]
  · simp [insert_file, hj1, callCount, sleeps]
  · simp [run_queryjob, hj2, callCount, sleeps]
  · simp [run_extractjob, hj3, callCount, sleeps]
  · simp [delete_file_from_gs, hdc, callCount, sleeps]
  · simp [publish, ensureTopic, hpt, hpp, hpa, callCount, sleeps]

/-- Helper: the all-failing oracle fails at every index. -/
theorem allErr_eq (n : Nat) : allErr n = Outcome.err := rfl

/-- Helper: the all-failing job world fails at every index. -/
theorem jwExc_att (n : Nat) : jwExc.att n = JobAttempt.exc := rfl

/-- Helper: in `pwErr` the topic always exists. -/
theorem pwErr_topic (n : Nat) : pwErr.topicExists n = true := rfl

/-- Helper: in `pwErr` every publish call fails. -/
theorem pwErr_pub (n : Nat) : pwErr.pubOutcome n = Outcome.err := rfl

/-- Witness for claim C1, at worlds whose every attempt raises a retriable
exception. -/
theorem claim1_retry_exhaustion_witness :
    ((move_file_gs allErr true 0).1 = .ok false
      ∧ callCount "copy_blob" (move_file_gs allErr true 0).2 = 4
      ∧ sleeps (move_file_gs allErr true 0).2 = [3, 3, 3])
    ∧ ((download_file_from_gs allErr 0).1 = .ok false
      ∧ callCount "download_to_filename" (download_file_from_gs allErr 0).2 = 4
      ∧ sleeps (download_file_from_gs allErr 0).2 = [3, 3, 3])
    ∧ ((upload_file_to_gs allErr false 0).1 = .ok false
      ∧ callCount "upload_from_filename" (upload_file_to_gs allErr false 0).2 = 4
      ∧ sleeps (upload_file_to_gs allErr false 0).2 = [3, 3, 3])
    ∧ ((createwait_table cwErr 0 0).1 = some false
      ∧ callCount "create_table" (createwait_table cwErr 0 0).2 = 4
      ∧ sleeps (createwait_table cwErr 0 0).2 = [5, 5, 5])
    ∧ ((insert_file jwExc "d" "t" 0).1 = .ok (none, none)
      ∧ callCount "load_table" (insert_file jwExc "d" "t" 0).2 = 4
      ∧ sleeps (insert_file jwExc "d" "t" 0).2 = [5, 5, 5])
    ∧ ((run_queryjob jwExc "d" "t" 0).1 = .ok (none, none)
      ∧ callCount "query" (run_queryjob jwExc "d" "t" 0).2 = 4
      ∧ sleeps (run_queryjob jwExc "d" "t" 0).2 = [5, 5, 5])
    ∧ ((run_extractjob jwExc "d" "t" 0).1 = .ok (none, none)
      ∧ callCount "extract_table" (run_extractjob jwExc "d" "t" 0).2 = 4
      ∧ sleeps (run_extractjob jwExc "d" "t" 0).2 = [5, 5, 5])
    ∧ ((delete_file_from_gs allErr 0).1 = .ok false
      ∧ callCount "blob_delete" (delete_file_from_gs allErr 0).2 = 3
      ∧ sleeps (delete_file_from_gs allErr 0).2 = [3, 3])
    ∧ ((publish pwErr 0).1 = .ok false
      ∧ callCount "publish" (publish pwErr 0).2 = 3
      ∧ sleeps (publish pwErr 0).2 = [10, 10]) :=
  claim1_retry_exhaustion allErr allErr allErr allErr true false
    cwErr jwExc jwExc jwExc pwErr "d" "t" 0
    allErr_eq allErr_eq allErr_eq allErr_eq
    allErr_eq jwExc_att jwExc_att jwExc_att
    pwErr_topic pwErr_pub rfl

/-- Helper: `move_file_gs` always returns a boolean, never an exception. -/
theorem move_file_gs_no_raise (o : Nat → Outcome) (d : Bool) (r : Nat) :
    ∃ b, (move_file_gs o d r).1 = .ok b := by
  refine move_file_gs.induct o d (fun r => ∃ b, (move_file_gs o d r).1 = .ok b)
    ?_ ?_ ?_ ?_ r
  · intro x hx
    exact ⟨true, by simp [move_file_gs, hx]⟩
  · intro x hx
    exact ⟨false, by simp [move_file_gs, hx]⟩
  · intro x hx h1 h2 ih
    obtain ⟨b, hb⟩ := ih
    refine ⟨b, ?_⟩
    rcases ho : o x with _ | _ | _ | _
    · exact absurd ho h1
    · exact absurd ho h2
    · rw [move_file_gs.eq_def]; simpa [ho, hx] using hb
    · rw [move_file_gs.eq_def]; simpa [ho, hx] using hb
  · intro x hx h1 h2
    refine ⟨false, ?_⟩
    rcases ho : o x with _ | _ | _ | _
    · exact absurd ho h1
    · exact absurd ho h2
    · rw [move_file_gs.eq_def]; simp [ho, hx]
    · rw [move_file_gs.eq_def]; simp [ho, hx]

/-- Helper: `download_file_from_gs` always returns a boolean, never an
exception. -/
theorem download_file_from_gs_no_raise (o : Nat → Outcome) (r : Nat) :
    ∃ b, (download_file_from_gs o r).1 = .ok b := by
  refine download_file_from_gs.induct o
    (fun r => ∃ b, (download_file_from_gs o r).1 = .ok b) ?_ ?_ ?_ ?_ r
  · intro x hx
    exact ⟨true, by simp [download_file_from_gs, hx]⟩
  · intro x hx
    exact ⟨false, by simp [download_file_from_gs, hx]⟩
  · intro x hx h1 h2 ih
    obtain ⟨b, hb⟩ := ih
    refine ⟨b, ?_⟩
    rcases ho : o x with _ | _ | _ | _
    · exact absurd ho h1
    · exact absurd ho h2
    · rw [download_file_from_gs.eq_def]; simpa [ho, hx] using hb
    · rw [download_file_from_gs.eq_def]; simpa [ho, hx] using hb
  · intro x hx h1 h2
    refine ⟨false, ?_⟩
    rcases ho : o x with _ | _ | _ | _
    · exact absurd ho h1
    · exact absurd ho h2
    · rw [download_file_from_gs.eq_def]; simp [ho, hx]
    · rw [download_file_from_gs.eq_def]; simp [ho, hx]

/-- Helper: `upload_file_to_gs` always returns a boolean, never an
exception. -/
theorem upload_file_to_gs_no_raise (o : Nat → Outcome) (d : Bool) (r : Nat) :
    ∃ b, (upload_file_to_gs o d r).1 = .ok b := by
  refine upload_file_to_gs.induct o d
    (fun r => ∃ b, (upload_file_to_gs o d r).1 = .ok b) ?_ ?_ ?_ r
  · intro x hx
    exact ⟨true, by simp [upload_file_to_gs, hx]⟩
  · intro x hx h1 ih
    obtain ⟨b, hb⟩ := ih
    refine ⟨b, ?_⟩
    rcases ho : o x with _ | _ | _ | _
    · exact absurd ho h1
    · rw [upload_file_to_gs.eq_def]; simpa [ho, hx] using hb
    · rw [upload_file_to_gs.eq_def]; simpa [ho, hx] using hb
    · rw [upload_file_to_gs.eq_def]; simpa [ho, hx] using hb
  · intro x hx h1
    refine ⟨false, ?_⟩
    rcases ho : o x with _ | _ | _ | _
    · exact absurd ho h1
    · rw [upload_file_to_gs.eq_def]; simp [ho, hx]
    · rw [upload_file_to_gs.eq_def]; simp [ho, hx]
    · rw [upload_file_to_gs.eq_def]; simp [ho, hx]

/-- Helper: `delete_file_from_gs` always returns a boolean, never an
exception. -/
theorem delete_file_from_gs_no_raise (o : Nat → Outcome) (r : Nat) :
    ∃ b, (delete_file_from_gs o r).1 = .ok b := by
  refine delete_file_from_gs.induct o
    (fun r => ∃ b, (delete_file_from_gs o r).1 = .ok b) ?_ ?_ ?_ ?_ r
  · intro x hx
    exact ⟨true, by simp [delete_file_from_gs, hx]⟩
  · intro x hx
    exact ⟨false, by simp [delete_file_from_gs, hx]⟩
  · intro x hx h1 h2 ih
    obtain ⟨b, hb⟩ := ih
    refine ⟨b, ?_⟩
    rcases ho : o x with _ | _ | _ | _
    · exact absurd ho h1
    · exact absurd ho h2
    · rw [delete_file_from_gs.eq_def]; simpa [ho, hx] using hb
    · rw [delete_file_from_gs.eq_def]; simpa [ho, hx] using hb
  · intro x hx h1 h2
    refine ⟨false, ?_⟩
    rcases ho : o x with _ | _ | _ | _
    · exact absurd ho h1
    · exact absurd ho h2
    · rw [delete_file_from_gs.eq_def]; simp [ho, hx]
    · rw [delete_file_from_gs.eq_def]; simp [ho, hx]

/-- Helper: `insert_file` always returns a pair, never an exception. -/
theorem insert_file_no_raise (w : JobWorld) (ds tb : String) (r : Nat) :
    ∃ v, (insert_file w ds tb r).1 = .ok v := by
  refine insert_file.induct w ds tb
    (fun r => ∃ v, (insert_file w ds tb r).1 = .ok v) ?_ ?_ ?_ r
  · intro x t e hx
    exact ⟨(some (ds ++ "_" ++ tb ++ "_loadFile-" ++ w.uuidGen x), e),
      by simp [insert_file, hx]⟩
  · intro x hx h1 ih
    obtain ⟨v, hv⟩ := ih
    refine ⟨v, ?_⟩
    rw [insert_file.eq_def]; simpa [hx, h1] using hv
  · intro x hx h1
    refine ⟨(none, none), ?_⟩
    rw [insert_file.eq_def]; simp [hx, h1]

/-- Helper: `run_queryjob` always returns a pair, never an exception. -/
theorem run_queryjob_no_raise (w : JobWorld) (ds tb : String) (r : Nat) :
    ∃ v, (run_queryjob w ds tb r).1 = .ok v := by
  refine run_queryjob.induct w ds tb
    (fun r => ∃ v, (run_queryjob w ds tb r).1 = .ok v) ?_ ?_ ?_ r
  · intro x t e hx
    exact ⟨(some (ds ++ "_" ++ tb ++ "_fromQuery-" ++ w.uuidGen x), e),
      by simp [run_queryjob, hx]⟩
  · intro x hx h1 ih
    obtain ⟨v, hv⟩ := ih
    refine ⟨v, ?_⟩
    rw [run_queryjob.eq_def]; simpa [hx, h1] using hv
  · intro x hx h1
    refine ⟨(none, none), ?_⟩
    rw [run_queryjob.eq_def]; simp [hx, h1]

/-- Helper: `run_extractjob` always returns a pair, never an exception. -/
theorem run_extractjob_no_raise (w : JobWorld) (ds tb : String) (r : Nat) :
    ∃ v, (run_extractjob w ds tb r).1 = .ok v := by
  refine run_extractjob.induct w ds tb
    (fun r => ∃ v, (run_extractjob w ds tb r).1 = .ok v) ?_ ?_ ?_ r
  · intro x t e hx
    exact ⟨(some (ds ++ "_" ++ tb ++ "_extractTable-" ++ w.uuidGen x), e),
      by simp [run_extractjob, hx]⟩
  · intro x hx h1 ih
    obtain ⟨v, hv⟩ := ih
    refine ⟨v, ?_⟩
    rw [run_extractjob.eq_def]; simpa [hx, h1] using hv
  · intro x hx h1
    refine ⟨(none, none), ?_⟩
    rw [run_extractjob.eq_def]; simp [hx, h1]

/-- Claim C2 (amended): every object-storage operation and every warehouse
job operation resolves to a normal value or its failure sentinel and never
propagates an exception, for every world and every retry depth
(`createwait_table`, whose result type has no exception case at all, never
raises either).  The publisher and subscriber facades are the exception to
the claim: `publish` propagates whatever `create_topic` raises when the
topic is missing and creation fails (see the counterexample), and
`subscribe` propagates a `NameError` or a failed creation or a
non-`KeyboardInterrupt` streaming error likewise. -/
theorem claim2_no_exception_escape :
    (∀ o, ∃ b, (file_exist_gs o).1 = .ok b)
    ∧ (∀ o d r, ∃ b, (move_file_gs o d r).1 = .ok b)
    ∧ (∀ o, ∃ b, (copy_file_gs o).1 = .ok b)
    ∧ (∀ oc gp nn, ∃ v, (rename_gs oc gp nn).1 = .ok v)
    ∧ (∀ o r, ∃ b, (download_file_from_gs o r).1 = .ok b)
    ∧ (∀ o d r, ∃ b, (upload_file_to_gs o d r).1 = .ok b)
    ∧ (∀ o, ∃ v, (list_files_from_gs o).1 = .ok v)
    ∧ (∀ o r, ∃ b, (delete_file_from_gs o r).1 = .ok b)
    ∧ (∀ w ds tb r, ∃ v, (insert_file w ds tb r).1 = .ok v)
    ∧ (∀ w ds tb r, ∃ v, (run_queryjob w ds tb r).1 = .ok v)
    ∧ (∀ w ds tb r, ∃ v, (run_extractjob w ds tb r).1 = .ok v) := by
  refine ⟨?_, move_file_gs_no_raise, ?_, ?_, download_file_from_gs_no_raise,
    upload_file_to_gs_no_raise, ?_, delete_file_from_gs_no_raise,
    insert_file_no_raise, run_queryjob_no_raise, run_extractjob_no_raise⟩
  · intro o
    cases o <;> exact ⟨_, rfl⟩
  · intro o
    exact move_file_gs_no_raise o false 0
  · intro oc gp nn
    cases oc <;> exact ⟨_, rfl⟩
  · intro o
    cases o <;> exact ⟨_, rfl⟩

/-- Counterexample to claim C2 as stated: when the topic does not exist
and `create_topic` itself raises, `publish` propagates that exception to
its caller instead of returning a sentinel, because `create_topic` runs
inside the bare `except:` handler with no protection of its own
(publisher.py, line 24). -/
theorem claim2_counterexample :
    (publish pwCreateFails 0).1 = .error .other := by
  simp [publish, ensureTopic, pwCreateFails]

/-- Claim C3 (amended): a `NotFound` failure makes `move_file_gs`,
`copy_file_gs`, `download_file_from_gs` and `delete_file_from_gs` return
`False` immediately with a WARNING log, no retry and no sleep;
`rename_gs` also returns its sentinel immediately with no retry and no
sleep, but logs at ERROR (its only handler is `except Exception`); and
`upload_file_to_gs`, which has no `except NotFound` clause at all, treats
`NotFound` like any other exception: with `NotFound` on every attempt it
retries to its ceiling, sleeping 3 s between the 4 attempts, before
returning `False`. -/
theorem claim3_not_found_handling
    (omv ocp odl odc oup : Nat → Outcome) (d du : Bool)
    (orn : Outcome) (gp nn : List Char)
    (hmv : omv 0 = .notFound) (hcp : ocp 0 = .notFound)
    (hdl : odl 0 = .notFound) (hdc : odc 0 = .notFound)
    (hrn : orn = .notFound)
    (hup : ∀ n, oup n = .notFound) :
    move_file_gs omv d 0
      = (.ok false, [Event.call "copy_blob" 0, Event.log .WARNING])
    ∧ copy_file_gs ocp
      = (.ok false, [Event.call "copy_blob" 0, Event.log .WARNING])
    ∧ download_file_from_gs odl 0
      = (.ok false, [Event.call "download_to_filename" 0, Event.log .WARNING])
    ∧ delete_file_from_gs odc 0
      = (.ok false, [Event.call "blob_delete" 0, Event.log .WARNING])
    ∧ rename_gs orn gp nn
      = (.ok none, [Event.call "rename_blob" 0, Event.log .ERROR])
    ∧ ((upload_file_to_gs oup du 0).1 = .ok false
      ∧ callCount "upload_from_filename" (upload_file_to_gs oup du 0).2 = 4
      ∧ sleeps (upload_file_to_gs oup du 0).2 = [3, 3, 3]) := by
  refine ⟨?_, ?_, ?_, ?_, ?_, ?_⟩
  · simp [move_file_gs, hmv]
  · simp [copy_file_gs, move_file_gs, hcp]
  · simp [download_file_from_gs, hdl]
  · simp [delete_file_from_gs, hdc]
  · simp [rename_gs, hrn]
  · simp [upload_file_to_gs, hup, callCount, sleeps]

/-- Witness for claim C3, at worlds whose every attempt raises `NotFound`. -/
theorem claim3_not_found_handling_witness :
    move_file_gs allNotFound true 0
      = (.ok false, [Event.call "copy_blob" 0, Event.log .WARNING])
    ∧ copy_file_gs allNotFound
      = (.ok false, [Event.call "copy_blob" 0, Event.log .WARNING])
    ∧ download_file_from_gs allNotFound 0
      = (.ok false, [Event.call "download_to_filename" 0, Event.log .WARNING])
    ∧ delete_file_from_gs allNotFound 0
      = (.ok false, [Event.call "blob_delete" 0, Event.log .WARNING])
    ∧ rename_gs Outcome.notFound ['a'] ['b']
      = (.ok none, [Event.call "rename_blob" 0, Event.log .ERROR])
    ∧ ((upload_file_to_gs allNotFound false 0).1 = .ok false
      ∧ callCount "upload_from_filename" (upload_file_to_gs allNotFound false 0).2 = 4
      ∧ sleeps (upload_file_to_gs allNotFound false 0).2 = [3, 3, 3]) :=
  claim3_not_found_handling allNotFound allNotFound allNotFound allNotFound
    allNotFound true false Outcome.notFound ['a'] ['b']
    rfl rfl rfl rfl rfl (fun _ => rfl)

/-- Counterexample to claim C3 as stated: `upload_file_to_gs` does not
return immediately on `NotFound` — with `NotFound` raised on every
attempt it sleeps three times and makes four attempts, because the source
has no `except NotFound` clause for this operation (storage.py,
lines 222-239 catch only `Exception`). -/
theorem claim3_counterexample :
    sleeps (upload_file_to_gs allNotFound true 0).2 = [3, 3, 3]
    ∧ callCount "upload_from_filename" (upload_file_to_gs allNotFound true 0).2 = 4 := by
  constructor
  · simp [upload_file_to_gs, allNotFound, sleeps]
  · simp [upload_file_to_gs, allNotFound, callCount]

/-- Claim C4 (amended): `createwait_table` attempts creation without any
existence pre-check and treats `Conflict` ("already exists") as success —
exactly one `create_table` call, success sentinel `True`, no retry sleep.
`publish` and `subscribe`, however, pre-check existence (`get_topic` /
`get_subscription` first) and skip creation when the resource exists:
zero creation calls are made in that case, and the operation proceeds
with no retry sleep. -/
theorem claim4_idempotent_creation
    (cw : CwWorld) (fuel : Nat) (pw : PubWorld) (sw : SubWorld)
    (hcw : cw.create 0 = .conflict)
    (hpt : pw.topicExists 0 = true) (hpo : pw.pubOutcome 0 = .ok)
    (hpa : pw.attrsIsDict = true)
    (hse : sw.subExists = true) :
    createwait_table cw fuel 0
      = (some true, [Event.call "create_table" 0, Event.log .INFO])
    ∧ publish pw 0
      = (.ok true, [Event.call "get_topic" 0, Event.log .DEBUG,
                    Event.call "publish" 0, Event.log .INFO])
    ∧ callCount "create_topic" (publish pw 0).2 = 0
    ∧ callCount "create_subscription" (subscribe sw).2 = 0 := by
  refine ⟨?_, ?_, ?_, ?_⟩
  · simp [createwait_table, hcw]
  · simp [publish, ensureTopic, hpt, hpo, hpa]
  · simp [publish, ensureTopic, hpt, hpo, hpa, callCount]
  · rcases hst : sw.stream <;>
      simp [subscribe, subscribeTail, hse, hst, callCount]

/-- Witness for claim C4: a `Conflict` on table creation, an existing
topic, and an existing subscription. -/
theorem claim4_idempotent_creation_witness :
    createwait_table cwConflict 0 0
      = (some true, [Event.call "create_table" 0, Event.log .INFO])
    ∧ publish pwTopicExists 0
      = (.ok true, [Event.call "get_topic" 0, Event.log .DEBUG,
                    Event.call "publish" 0, Event.log .INFO])
    ∧ callCount "create_topic" (publish pwTopicExists 0).2 = 0
    ∧ callCount "create_subscription" (subscribe swExists).2 = 0 :=
  claim4_idempotent_creation cwConflict 0 pwTopicExists swExists
    rfl rfl rfl rfl rfl

/-- Counterexample to claim C4 as stated: `publish` does pre-check
existence with `get_topic`, and when the topic already exists it makes
zero `create_topic` calls, not exactly one (publisher.py, lines 20-25). -/
theorem claim4_counterexample :
    (publish pwTopicExists 0).1 = .ok true
    ∧ callCount "create_topic" (publish pwTopicExists 0).2 = 0
    ∧ callCount "get_topic" (publish pwTopicExists 0).2 = 1 := by
  refine ⟨?_, ?_, ?_⟩ <;> simp [publish, ensureTopic, pwTopicExists, callCount]

/-- Claim C5 (amended): only `createwait_table` confirms creation with a
post-creation existence check: after a successful `create_table` it polls
`get_table` and returns `True` once a probe succeeds (here: the first
probe).  `publish` and `subscribe` create the missing topic/subscription
and proceed directly with **no** existence check after creation: their
single `get_topic`/`get_subscription` call is the pre-check that failed
before creation. -/
theorem claim5_post_creation_confirmation
    (cw : CwWorld) (f : Nat) (pw : PubWorld) (sw : SubWorld)
    (hc1 : cw.create 0 = .ok) (hc2 : cw.check 0 0 = true)
    (hp1 : pw.topicExists 0 = false) (hp2 : pw.createOk 0 = true)
    (hp3 : pw.pubOutcome 0 = .ok) (hp4 : pw.attrsIsDict = true)
    (hs1 : sw.subExists = false) (hs2 : sw.publisherClientBound = true)
    (hs3 : sw.createOk = true) (hs4 : sw.stream = .completes) :
    createwait_table cw (f + 1) 0
      = (some true, [Event.call "create_table" 0, Event.call "get_table" 0,
                     Event.log .INFO])
    ∧ publish pw 0
      = (.ok true, [Event.call "get_topic" 0, Event.call "create_topic" 0,
                    Event.log .DEBUG, Event.call "publish" 0, Event.log .INFO])
    ∧ callCount "get_topic" (publish pw 0).2 = 1
    ∧ subscribe sw
      = (.ok (), [Event.call "get_subscription" 0,
                  Event.call "create_subscription" 0,
                  Event.log .DEBUG, Event.call "subscribe" 0])
    ∧ callCount "get_subscription" (subscribe sw).2 = 1 := by
  refine ⟨?_, ?_, ?_, ?_, ?_⟩
  · simp [createwait_table, waitLoop, hc1, hc2]
  · simp [publish, ensureTopic, hp1, hp2, hp3, hp4]
  · simp [publish, ensureTopic, hp1, hp2, hp3, hp4, callCount]
  · simp [subscribe, subscribeTail, hs1, hs2, hs3, hs4]
  · simp [subscribe, subscribeTail, hs1, hs2, hs3, hs4, callCount]

/-- Witness for claim C5: table creation confirmed by the first probe, a
missing topic successfully created, a missing subscription successfully
created in script mode. -/
theorem claim5_post_creation_confirmation_witness :
    createwait_table cwOk 1 0
      = (some true, [Event.call "create_table" 0, Event.call "get_table" 0,
                     Event.log .INFO])
    ∧ publish pwCreateOk 0
      = (.ok true, [Event.call "get_topic" 0, Event.call "create_topic" 0,
                    Event.log .DEBUG, Event.call "publish" 0, Event.log .INFO])
    ∧ callCount "get_topic" (publish pwCreateOk 0).2 = 1
    ∧ subscribe swCreateOk
      = (.ok (), [Event.call "get_subscription" 0,
                  Event.call "create_subscription" 0,
                  Event.log .DEBUG, Event.call "subscribe" 0])
    ∧ callCount "get_subscription" (subscribe swCreateOk).2 = 1 :=
  claim5_post_creation_confirmation cwOk 0 pwCreateOk swCreateOk
    rfl rfl rfl rfl rfl rfl rfl rfl rfl rfl

/-- Counterexample to claim C5 as stated: when the topic does not exist,
`publish` creates it and returns success after a single `get_topic` call
(the failed pre-check) — there is no second existence check confirming
the creation (publisher.py, lines 20-26). -/
theorem claim5_counterexample :
    (publish pwCreateOk 0).1 = .ok true
    ∧ callCount "create_topic" (publish pwCreateOk 0).2 = 1
    ∧ ¬ 2 ≤ callCount "get_topic" (publish pwCreateOk 0).2 := by
  refine ⟨?_, ?_, ?_⟩ <;> simp [publish, ensureTopic, pwCreateOk, callCount]

/-- Claim C6: for each warehouse job operation (`insert_file`,
`run_queryjob`, `run_extractjob`), a completion-wait timeout on the first
attempt is logged at WARNING but not treated as failure: the operation
still returns `(job_id, job.errors)` with the non-null job identifier,
exactly the value the non-timeout success path returns, with a single
attempt and no retry sleep (the WARNING between the attempt's events is
the only difference from the success trace). -/
theorem claim6_timeout_not_failure
    (w1 w2 w3 : JobWorld) (ds tb : String) (e1 e2 e3 : Option (List String))
    (h1 : w1.att 0 = .ok true e1) (h2 : w2.att 0 = .ok true e2)
    (h3 : w3.att 0 = .ok true e3) :
    insert_file w1 ds tb 0
      = (.ok (some (ds ++ "_" ++ tb ++ "_loadFile-" ++ w1.uuidGen 0), e1),
         [Event.call "load_table" 0, Event.log .WARNING, Event.log .INFO])
    ∧ run_queryjob w2 ds tb 0
      = (.ok (some (ds ++ "_" ++ tb ++ "_fromQuery-" ++ w2.uuidGen 0), e2),
         [Event.call "query" 0, Event.log .WARNING, Event.log .INFO])
    ∧ run_extractjob w3 ds tb 0
      = (.ok (some (ds ++ "_" ++ tb ++ "_extractTable-" ++ w3.uuidGen 0), e3),
         [Event.call "extract_table" 0, Event.log .WARNING, Event.log .INFO]) := by
  refine ⟨?_, ?_, ?_⟩
  · simp [insert_file, h1]
  · simp [run_queryjob, h2]
  · simp [run_extractjob, h3]

/-- Witness for claim C6: a world whose first attempt submits the job and
then hits the completion timeout with no job errors. -/
theorem claim6_timeout_not_failure_witness :
    insert_file jwTimeout "d" "t" 0
      = (.ok (some ("d" ++ "_" ++ "t" ++ "_loadFile-" ++ "u"), none),
         [Event.call "load_table" 0, Event.log .WARNING, Event.log .INFO])
    ∧ run_queryjob jwTimeout "d" "t" 0
      = (.ok (some ("d" ++ "_" ++ "t" ++ "_fromQuery-" ++ "u"), none),
         [Event.call "query" 0, Event.log .WARNING, Event.log .INFO])
    ∧ run_extractjob jwTimeout "d" "t" 0
      = (.ok (some ("d" ++ "_" ++ "t" ++ "_extractTable-" ++ "u"), none),
         [Event.call "extract_table" 0, Event.log .WARNING, Event.log .INFO]) :=
  claim6_timeout_not_failure jwTimeout jwTimeout jwTimeout "d" "t"
    none none none rfl rfl rfl

/-- Helper: boolean prefix test agrees with the existence of a tail. -/
theorem isPrefixOf_eq_true {l₁ l₂ : List Char} :
    l₁.isPrefixOf l₂ = true ↔ ∃ t, l₂ = l₁ ++ t := by
  induction l₁ generalizing l₂ with
  | nil => simp [List.isPrefixOf]
  | cons a as ih =>
      cases l₂ with
      | nil => simp [List.isPrefixOf]
      | cons b bs =>
          simp only [List.isPrefixOf, Bool.and_eq_true, beq_iff_eq, ih,
            List.cons_append, List.cons.injEq]
          constructor
          · rintro ⟨rfl, t, rfl⟩
            exact ⟨t, rfl, rfl⟩
          · rintro ⟨t, h1, h2⟩
            exact ⟨h1.symm, t, h2⟩

/-- Helper: `pyReplace` when a match starts at the head. -/
theorem pyReplace_cons_pos {pat repl : List Char} {a : Char} {s : List Char}
    (h1 : pat ≠ []) (h2 : pat.isPrefixOf (a :: s) = true) :
    pyReplace pat repl (a :: s)
      = repl ++ pyReplace pat repl (List.drop pat.length (a :: s)) := by
  rw [pyReplace.eq_def]
  exact if_pos ⟨h1, h2⟩

/-- Helper: `pyReplace` when no match starts at the head. -/
theorem pyReplace_cons_neg {pat repl : List Char} {a : Char} {s : List Char}
    (h : pat.isPrefixOf (a :: s) = false) :
    pyReplace pat repl (a :: s) = a :: pyReplace pat repl s := by
  rw [pyReplace.eq_def]
  exact if_neg (fun hc => by simp [h] at hc)

/-- Helper: inside the bucket segment no occurrence of `"gs://"` can
start: the segment has no `'/'`, so a match would need the segment to end
in `"gs:"` with the item path starting in `'/'`, which is excluded. -/
theorem gsScheme_no_match {a : Char} {c p : List Char}
    (hc : '/' ∉ a :: c)
    (hb : ¬((['g', 's', ':'] <:+ a :: c) ∧ ∃ t, p = '/' :: t)) :
    gsScheme.isPrefixOf (a :: (c ++ '/' :: p)) = false := by
  by_contra h
  have h' : gsScheme.isPrefixOf (a :: (c ++ '/' :: p)) = true := by
    simpa using h
  obtain ⟨t, ht⟩ := isPrefixOf_eq_true.mp h'
  rcases c with _ | ⟨x, _ | ⟨y, _ | ⟨z, c'⟩⟩⟩
  · simp [gsScheme] at ht
  · simp [gsScheme] at ht
  · simp [gsScheme] at ht
    obtain ⟨rfl, rfl, rfl, hp⟩ := ht
    exact hb ⟨List.suffix_refl _, ⟨t, hp⟩⟩
  · simp [gsScheme] at ht
    obtain ⟨-, -, -, hz, -⟩ := ht
    exact hc (by simp [hz])

/-- Helper: removing `"gs://"` leaves the bucket segment and its
separator untouched when no match can start there. -/
theorem pyReplace_gs_skip (c p : List Char) (hc : '/' ∉ c)
    (hb : ¬((['g', 's', ':'] <:+ c) ∧ ∃ t, p = '/' :: t)) :
    pyReplace gsScheme [] (c ++ '/' :: p)
      = c ++ '/' :: pyReplace gsScheme [] p := by
  induction c with
  | nil =>
      simp only [List.nil_append]
      rw [pyReplace_cons_neg (by simp [gsScheme, List.isPrefixOf])]
  | cons a c' ih =>
      have hc' : '/' ∉ c' := fun hmem => hc (List.mem_cons_of_mem a hmem)
      have hb' : ¬((['g', 's', ':'] <:+ c') ∧ ∃ t, p = '/' :: t) :=
        fun ⟨hsuf, hp⟩ => hb ⟨hsuf.trans (List.suffix_cons a c'), hp⟩
      have hm : gsScheme.isPrefixOf (a :: (c' ++ '/' :: p)) = false :=
        gsScheme_no_match hc hb
      simp only [List.cons_append]
      rw [pyReplace_cons_neg hm, ih hc' hb']

/-- Helper: `pySplit` never returns an empty list of segments. -/
theorem pySplit_ne_nil (sep : Char) (s : List Char) : pySplit sep s ≠ [] := by
  cases s with
  | nil => simp [pySplit]
  | cons a rest =>
      by_cases h : a = sep
      · simp [pySplit, h]
      · cases hps : pySplit sep rest <;> simp [pySplit, h, hps]

/-- Helper: the first segment of a split at the first separator is the
separator-free part before it. -/
theorem pySplit_head (c q : List Char) (hc : '/' ∉ c) :
    (pySplit '/' (c ++ '/' :: q)).headD [] = c := by
  induction c with
  | nil => simp [pySplit]
  | cons a c' ih =>
      have ha : ¬ a = '/' := fun h => hc (by simp [h])
      have hc' : '/' ∉ c' := fun hmem => hc (List.mem_cons_of_mem a hmem)
      cases hps : pySplit '/' (c' ++ '/' :: q) with
      | nil => exact absurd hps (pySplit_ne_nil _ _)
      | cons s ss =>
          have ihs : s = c' := by
            have := ih hc'
            rwa [hps, List.headD_cons] at this
          simp [pySplit, ha, hps, ihs]

/-- Helper: dropping the scheme, the bucket and the separator from a
well-formed locator leaves the item path. -/
theorem drop_scheme_bucket (c p : List Char) :
    (gsScheme ++ c ++ '/' :: p).drop (c.length + 6) = p := by
  have h1 : gsScheme ++ c ++ '/' :: p = (gsScheme ++ c ++ ['/']) ++ p := by
    simp
  have h2 : (gsScheme ++ c ++ ['/']).length = c.length + 6 := by
    simp [gsScheme]
  rw [h1, ← h2, List.drop_left]

/-- Claim C7 (amended): for a container name `c` without `'/'` and a
non-empty item path `p`, decomposing `"gs://" ++ c ++ "/" ++ p` with
`extractBucketFile` returns exactly `(c, p)`, and re-prefixing
reconstructs the original locator — provided the pair does not straddle a
spurious `"gs://"` occurrence, i.e. not (`c` ends in `"gs:"` and `p`
starts with `'/'`); without that proviso the claim fails (see the
counterexample). -/
theorem claim7_locator_roundtrip (c p : List Char) (hc : '/' ∉ c) (hp : p ≠ [])
    (hb : ¬((['g', 's', ':'] <:+ c) ∧ ∃ t, p = '/' :: t)) :
    extractBucketFile (gsScheme ++ c ++ '/' :: p) = (c, p)
    ∧ gsScheme ++ (extractBucketFile (gsScheme ++ c ++ '/' :: p)).1
        ++ '/' :: (extractBucketFile (gsScheme ++ c ++ '/' :: p)).2
      = gsScheme ++ c ++ '/' :: p := by
  have hrepl : pyReplace gsScheme [] (gsScheme ++ c ++ '/' :: p)
      = c ++ '/' :: pyReplace gsScheme [] p := by
    have hcons : gsScheme ++ c ++ '/' :: p
        = 'g' :: ('s' :: (':' :: ('/' :: ('/' :: (c ++ '/' :: p))))) := by
      simp [gsScheme]
    rw [hcons, pyReplace_cons_pos (by simp [gsScheme])
      (isPrefixOf_eq_true.mpr ⟨c ++ '/' :: p, by simp [gsScheme]⟩)]
    simp only [List.nil_append]
    have hdrop : List.drop gsScheme.length
        ('g' :: ('s' :: (':' :: ('/' :: ('/' :: (c ++ '/' :: p))))))
        = c ++ '/' :: p := by
      simp [gsScheme]
    rw [hdrop, pyReplace_gs_skip c p hc hb]
  have hbucket :
      (pySplit '/' (pyReplace gsScheme [] (gsScheme ++ c ++ '/' :: p))).headD []
        = c := by
    rw [hrepl]
    exact pySplit_head c _ hc
  have hmain : extractBucketFile (gsScheme ++ c ++ '/' :: p) = (c, p) := by
    simp only [extractBucketFile]
    rw [hbucket, drop_scheme_bucket]
  exact ⟨hmain, by rw [hmain]⟩

/-- Witness for claim C7: the locator `"gs://bkt/a/b.csv"`. -/
theorem claim7_locator_roundtrip_witness :
    extractBucketFile (gsScheme ++ ['b', 'k', 't'] ++ '/'
        :: ['a', '/', 'b', '.', 'c', 's', 'v'])
      = (['b', 'k', 't'], ['a', '/', 'b', '.', 'c', 's', 'v'])
    ∧ gsScheme ++ (extractBucketFile (gsScheme ++ ['b', 'k', 't'] ++ '/'
        :: ['a', '/', 'b', '.', 'c', 's', 'v'])).1
        ++ '/' :: (extractBucketFile (gsScheme ++ ['b', 'k', 't'] ++ '/'
        :: ['a', '/', 'b', '.', 'c', 's', 'v'])).2
      = gsScheme ++ ['b', 'k', 't'] ++ '/' :: ['a', '/', 'b', '.', 'c', 's', 'v'] :=
  claim7_locator_roundtrip ['b', 'k', 't'] ['a', '/', 'b', '.', 'c', 's', 'v']
    (by decide) (by decide) (by rintro ⟨-, t, hpt⟩; simp at hpt)

/-- Counterexample to claim C7 as stated: with container `"gs:"` (no `'/'`
in it) and non-empty item path `"/foo"`, the locator is
`"gs://gs:///foo"`, whose replace-all of `"gs://"` also consumes the
spurious occurrence straddling the separator, so `extractBucketFile`
returns `("foo", "/foo")` instead of `("gs:", "/foo")`. -/
theorem claim7_counterexample :
    ('/' ∉ (['g', 's', ':'] : List Char))
    ∧ (['/', 'f', 'o', 'o'] : List Char) ≠ []
    ∧ extractBucketFile (gsScheme ++ ['g', 's', ':'] ++ '/' :: ['/', 'f', 'o', 'o'])
        ≠ (['g', 's', ':'], ['/', 'f', 'o', 'o']) := by
  refine ⟨by decide, by decide, ?_⟩
  have hval : extractBucketFile
      (gsScheme ++ ['g', 's', ':'] ++ '/' :: ['/', 'f', 'o', 'o'])
      = (['f', 'o', 'o'], ['/', 'f', 'o', 'o']) := by
    simp [extractBucketFile, pyReplace, pySplit, gsScheme, List.isPrefixOf]
  rw [hval]
  decide

/-- Claim C8 (code bug): `build_schema_from_dict` applied to
`{"a": "STRING", "b": {"c": "INTEGER"}}` does **not** return the claimed
two-field descriptor with a nested RECORD.  Under Python 3 the test
`isinstance(v, unicode)` on the nested-dictionary value raises
`NameError` (`unicode` is a Python 2 builtin), the `except Exception`
handler catches it, and the partial one-field list `[a: STRING]` is
returned instead — the RECORD branch of the source is unreachable. -/
theorem claim8_schema_builder_eval :
    build_schema_from_dict "NULLABLE"
      [("a", PyVal.str "STRING"), ("b", PyVal.dict [("c", PyVal.str "INTEGER")])]
      = [SchemaField.mk "a" "STRING" "NULLABLE" []]
    ∧ (build_schema_from_dict "NULLABLE"
      [("a", PyVal.str "STRING"), ("b", PyVal.dict [("c", PyVal.str "INTEGER")])]).length
      = 1 :=
  ⟨rfl, rfl⟩

/-- Claim C9 (code bug): when the module is imported as a library (so the
script-only global `publisher_client` is unbound) and the subscription
does not exist, `subscribe` raises `NameError` from inside its bare
`except:` handler (subscriber.py, line 34) instead of creating the
subscription and blocking on delivery. -/
theorem claim9_subscribe_nameerror :
    subscribe swLibraryNoSub
      = (.error .nameError, [Event.call "get_subscription" 0]) := rfl

/-- Helper: with an existence check that always fails, the confirmation
loop of `createwait_table` never finishes: for every fuel it is still
running, having made one `get_table` probe and one 5-second sleep per
iteration. -/
theorem waitLoop_never (check : Nat → Bool) (h : ∀ i, check i = false) :
    ∀ f i, (waitLoop check f i).1 = none
      ∧ sleeps (waitLoop check f i).2 = List.replicate f 5
      ∧ callCount "get_table" (waitLoop check f i).2 = f := by
  intro f
  induction f with
  | zero => intro i; simp [waitLoop, sleeps, callCount]
  | succ f ih =>
      intro i
      obtain ⟨h1, h2, h3⟩ := ih (i + 1)
      simp only [sleeps] at h2
      simp only [callCount] at h3
      refine ⟨?_, ?_, ?_⟩
      · simp [waitLoop, h i, h1]
      · simp [waitLoop, h i, sleeps, h2, List.replicate_succ]
      · simp [waitLoop, h i, callCount, h3]

/-- Claim C10: the post-creation confirmation loop of `createwait_table`
has no attempt ceiling: when `create_table` succeeds but every
`get_table` probe fails, then for every amount of fuel the call is still
looping (`none`), having slept 5 seconds after each of the `fuel` failed
probes — i.e. the source loops forever and never returns. -/
theorem claim10_confirmation_loop_unbounded
    (w : CwWorld) (hok : w.create 0 = .ok)
    (hchk : ∀ i, w.check 0 i = false) :
    ∀ fuel, (createwait_table w fuel 0).1 = none
      ∧ sleeps (createwait_table w fuel 0).2 = List.replicate fuel 5
      ∧ callCount "get_table" (createwait_table w fuel 0).2 = fuel := by
  intro fuel
  obtain ⟨h1, h2, h3⟩ := waitLoop_never (w.check 0) hchk fuel 0
  simp only [sleeps] at h2
  simp only [callCount] at h3
  refine ⟨?_, ?_, ?_⟩
  · simp [createwait_table, hok, h1]
  · simp [createwait_table, hok, h1, sleeps, h2]
  · simp [createwait_table, hok, h1, callCount, h3]

/-- Witness for claim C10: creation succeeds, the table never becomes
visible, and after 3 loop iterations the call is still running. -/
theorem claim10_confirmation_loop_unbounded_witness :
    (createwait_table cwNeverVisible 3 0).1 = none
    ∧ sleeps (createwait_table cwNeverVisible 3 0).2 = List.replicate 3 5
    ∧ callCount "get_table" (createwait_table cwNeverVisible 3 0).2 = 3 :=
  claim10_confirmation_loop_unbounded cwNeverVisible rfl (fun _ => rfl) 3
